import Mathlib

/-!
Shallow embedding of the daily-limit watcher (`dailyLimit/watcher.py`).

Prices and market figures are modelled as rationals, timestamps as integer
seconds.  The per-stock body of `Strategy.next` is split into `classify`
(the state-tracker update, lines 142-190 of the source) and
`notifyDecision` (the trigger gate plus rule chain, lines 195-218).
Reading `zt_keep_seconds` when `latest_zt_dt` is `None` would raise a
`TypeError` in Python, so `zt_keep_seconds` is `Option`-valued and the
pipeline returns `none` exactly when such a read would occur; likewise the
per-cycle loop returns an error when a snapshot is missing from the
collected map (`sns[stock_code]` raising `KeyError`).
-/

namespace DailyLimit

/-- Snapshot fields read from the per-stock quote snapshot. -/
structure Snapshot where
  top_price : ℚ
  bottom_price : ℚ
  price : ℚ
  turnover_rate : ℚ
  trading_volume : ℚ
  trading_amount : ℚ
  sell_1_price : ℚ
  buy_1_price : ℚ
  sell_1_count : ℚ
  buy_1_count : ℚ
deriving DecidableEq

/-- Per-candidate fields read from the broad realtime-quote row. -/
structure Row where
  stock_code : String
  stock_name : String
  total_market_value : ℚ
  circulating_market_value : ℚ
deriving DecidableEq

/-- The `StockQuoteInfo` dataclass.  `latest_zt_dt` is `Option` because the
first-sighting constructor passes `None` for it. -/
structure StockQuoteInfo where
  stock_code : String
  stock_name : String
  dt : Int
  price : ℚ
  top_price : ℚ
  bottom_price : ℚ
  latest_zt_dt : Option Int
  latest_nzt_dt : Int
  total_market_value : ℚ
  circulating_market_value : ℚ
  turnover_rate : ℚ
  trading_volume : ℚ
  trading_amount : ℚ
  sell_1_price : ℚ
  buy_1_price : ℚ
  sell_1_count : ℚ
  buy_1_count : ℚ
deriving DecidableEq

/-- The `zt_keep_seconds` property: `(latest_zt_dt - latest_nzt_dt).seconds`.
Python's `timedelta.seconds` is the seconds component after normalisation,
i.e. the Euclidean remainder mod 86400 for whole-second stamps; the value is
`none` when `latest_zt_dt` is `None` (the subtraction would raise). -/
def StockQuoteInfo.zt_keep_seconds (info : StockQuoteInfo) : Option Int :=
  info.latest_zt_dt.map (fun z => (z - info.latest_nzt_dt) % 86400)

/-- The three non-`None` values of `tip` (`ZT_TIP`, `ZT_KEEP_TIP`,
`ZT_BREAK_TIP`). -/
inductive Tip
| zt
| ztKeep
| ztBreak
deriving DecidableEq

/-- `ZT_NOTICE_MAX_SECONDS = 33`. -/
def ZT_NOTICE_MAX_SECONDS : Int := 33

/-- The tolerance `1e-2` used on `abs (top_price - current_price)`. -/
def eps : ℚ := 1 / 100

/-- The record built on first sighting (lines 146-162): limit-time defaults
are `latest_nzt_dt = dt` and `latest_zt_dt = None`; market and liquidity
fields are captured from the row and the snapshot. -/
def mkFirstInfo (row : Row) (sn : Snapshot) (dt : Int) : StockQuoteInfo where
  stock_code := row.stock_code
  stock_name := row.stock_name
  dt := dt
  price := sn.price
  top_price := sn.top_price
  bottom_price := sn.bottom_price
  latest_zt_dt := none
  latest_nzt_dt := dt
  total_market_value := row.total_market_value
  circulating_market_value := row.circulating_market_value
  turnover_rate := sn.turnover_rate
  trading_volume := sn.trading_volume
  trading_amount := sn.trading_amount
  sell_1_price := sn.sell_1_price
  buy_1_price := sn.buy_1_price
  sell_1_count := sn.sell_1_count
  buy_1_count := sn.buy_1_count

/-- The record the branch logic operates on: the existing one, or the
freshly created first-sighting record. -/
def baseInfo (pre : Option StockQuoteInfo) (row : Row) (sn : Snapshot) (dt : Int) :
    StockQuoteInfo :=
  pre.getD (mkFirstInfo row sn dt)

/-- The branch structure of lines 171-187: at-limit check with tolerance
`eps`, then `first or current_price > pre_info.price` / equality /
otherwise, setting `latest_zt_dt` or `latest_nzt_dt` accordingly. -/
def classifyCore (pre : Option StockQuoteInfo) (row : Row) (sn : Snapshot) (dt : Int) :
    StockQuoteInfo × Option Tip :=
  if |sn.top_price - sn.price| ≤ eps then
    if pre = none ∨ sn.price > (baseInfo pre row sn dt).price then
      ({ baseInfo pre row sn dt with latest_zt_dt := some dt }, some Tip.zt)
    else if sn.price = (baseInfo pre row sn dt).price then
      ({ baseInfo pre row sn dt with latest_zt_dt := some dt }, some Tip.ztKeep)
    else
      ({ baseInfo pre row sn dt with latest_nzt_dt := dt }, some Tip.ztBreak)
  else
    ({ baseInfo pre row sn dt with latest_nzt_dt := dt }, none)

/-- The full state-tracker update: the branch of `classifyCore` followed by
the unconditional `pre_info.price = current_price; pre_info.dt = dt`
(lines 189-190). -/
def classify (pre : Option StockQuoteInfo) (row : Row) (sn : Snapshot) (dt : Int) :
    StockQuoteInfo × Option Tip :=
  ({ (classifyCore pre row sn dt).1 with price := sn.price, dt := dt },
   (classifyCore pre row sn dt).2)

/-- The trigger gate (lines 195-197):
`tip == ZT_TIP or (tip == ZT_KEEP_TIP and pre_info.zt_keep_seconds <= 33)`.
Python's `or`/`and` short-circuit, so `zt_keep_seconds` is read only in the
`ZT_KEEP_TIP` conjunct; a read of a `None` limit time surfaces as `none`. -/
def gate (tip : Option Tip) (info : StockQuoteInfo) : Option Bool :=
  if tip = some Tip.zt then some true
  else if tip = some Tip.ztKeep then
    match info.zt_keep_seconds with
    | none => none
    | some k => some (decide (k ≤ ZT_NOTICE_MAX_SECONDS))
  else some false

/-- The six `continue` filters (lines 201-218), in source order; `some true`
means the notification fires. -/
def ruleChain (info : StockQuoteInfo) : Option Bool :=
  if info.total_market_value < 10 * 10000 * 10000 ∨
      info.total_market_value > 1000 * 10000 * 10000 then some false
  else if info.price < 3 ∨ info.price > 20 then some false
  else if info.turnover_rate < 5 ∨ info.turnover_rate > 15 then some false
  else if info.trading_amount / info.total_market_value < 5 / 100 ∨
      info.trading_amount / info.total_market_value > 15 / 100 then some false
  else if info.buy_1_count * 100 * info.buy_1_price / info.total_market_value
      < 5 / 1000 then some false
  else
    match info.zt_keep_seconds with
    | none => none
    | some k => if k < 30 then some false else some true

/-- The notification decision for one stock in one cycle: gate, then rule
chain. -/
def notifyDecision (tip : Option Tip) (info : StockQuoteInfo) : Option Bool :=
  match gate tip info with
  | none => none
  | some false => some false
  | some true => ruleChain info

/-- One full per-stock iteration of the loop body: updated record, tip, and
notification decision (the decision reads the already-updated record, as the
source does). -/
def stockStep (pre : Option StockQuoteInfo) (row : Row) (sn : Snapshot) (dt : Int) :
    StockQuoteInfo × Option Tip × Option Bool :=
  ((classify pre row sn dt).1, (classify pre row sn dt).2,
   notifyDecision (classify pre row sn dt).2 (classify pre row sn dt).1)

/-- Feeding a sequence of timestamped snapshots for one stock to the state
tracker, recording the record and tip after each cycle. -/
def runStates (row : Row) : Option StockQuoteInfo → List (Int × Snapshot) →
    List (StockQuoteInfo × Option Tip)
  | _, [] => []
  | s, (t, sn) :: rest =>
      ((stockStep s row sn t).1, (stockStep s row sn t).2.1) ::
        runStates row (some ((stockStep s row sn t).1)) rest

/-- Errors that abort the per-cycle candidate loop: `sns[stock_code]` on a
missing key (`KeyError`), and a `zt_keep_seconds` read on a `None` limit
time (`TypeError`).  Neither is caught anywhere in the program. -/
inductive CycleError
| keyError (stock_code : String)
| typeError (stock_code : String)
deriving DecidableEq

/-- The candidate loop of one cycle (lines 130-222): for each row, look the
snapshot up in the collected map and run the per-stock step; an uncaught
error aborts the remaining candidates and propagates out of the driver
loop.  Returns the updated record map and the notify decision per
processed stock. -/
def processCycle (state : String → Option StockQuoteInfo) (rows : List Row)
    (sns : String → Option Snapshot) (dt : Int) :
    Except CycleError ((String → Option StockQuoteInfo) × List (String × Bool)) :=
  match rows with
  | [] => Except.ok (state, [])
  | row :: rest =>
    match sns row.stock_code with
    | none => Except.error (CycleError.keyError row.stock_code)
    | some sn =>
      match (stockStep (state row.stock_code) row sn dt).2.2 with
      | none => Except.error (CycleError.typeError row.stock_code)
      | some b =>
        match processCycle
            (fun c => if c = row.stock_code
              then some ((stockStep (state row.stock_code) row sn dt).1)
              else state c) rest sns dt with
        | Except.error e => Except.error e
        | Except.ok (st, l) => Except.ok (st, (row.stock_code, b) :: l)

/-- Pass condition of filter 1 (market-cap band), the negation of the
source's `continue` test. -/
def passMarketCap (info : StockQuoteInfo) : Prop :=
  10 * 10000 * 10000 ≤ info.total_market_value ∧
    info.total_market_value ≤ 1000 * 10000 * 10000

/-- Pass condition of filter 2 (price band). -/
def passPriceBand (info : StockQuoteInfo) : Prop :=
  3 ≤ info.price ∧ info.price ≤ 20

/-- Pass condition of filter 3 (turnover-rate band). -/
def passTurnover (info : StockQuoteInfo) : Prop :=
  5 ≤ info.turnover_rate ∧ info.turnover_rate ≤ 15

/-- Pass condition of filter 4 (trading-amount over market value band). -/
def passAmountShare (info : StockQuoteInfo) : Prop :=
  5 / 100 ≤ info.trading_amount / info.total_market_value ∧
    info.trading_amount / info.total_market_value ≤ 15 / 100

/-- Pass condition of filter 5 (buy-side depth over market value floor). -/
def passBuyDepth (info : StockQuoteInfo) : Prop :=
  5 / 1000 ≤ info.buy_1_count * 100 * info.buy_1_price / info.total_market_value

/-- Pass condition of filter 6 (minimum hold duration), stated on the value
read from `zt_keep_seconds`. -/
def passMinHold (k : Int) : Prop := 30 ≤ k

/-- Concrete candidate row used in witnesses. -/
def rowW : Row where
  stock_code := "000001"
  stock_name := "AAA"
  total_market_value := 2000000000
  circulating_market_value := 1000000000

/-- Concrete at-limit snapshot (price exactly at the limit) whose figures
pass all six filters. -/
def snLimit : Snapshot where
  top_price := 10
  bottom_price := 9
  price := 10
  turnover_rate := 10
  trading_volume := 1000
  trading_amount := 200000000
  sell_1_price := 10
  buy_1_price := 10
  sell_1_count := 50000
  buy_1_count := 20000

/-- Concrete snapshot whose price sits exactly `eps` below the limit. -/
def snEdge : Snapshot := { snLimit with price := 999 / 100 }

/-- Concrete snapshot differing from `snLimit` in its liquidity figures. -/
def snNew : Snapshot := { snLimit with turnover_rate := 7, trading_amount := 300000000 }

/-- Concrete record passing all six filters, with hold seconds 35. -/
def infoPass : StockQuoteInfo where
  stock_code := "000001"
  stock_name := "AAA"
  dt := 35
  price := 10
  top_price := 10
  bottom_price := 9
  latest_zt_dt := some 35
  latest_nzt_dt := 0
  total_market_value := 2000000000
  circulating_market_value := 1000000000
  turnover_rate := 10
  trading_volume := 1000
  trading_amount := 200000000
  sell_1_price := 10
  buy_1_price := 10
  sell_1_count := 50000
  buy_1_count := 20000

/-- Like `infoPass` but with hold seconds 40 (above the notice cap 33). -/
def info40 : StockQuoteInfo := { infoPass with dt := 40, latest_zt_dt := some 40 }

/-- Concrete pre-existing record whose liquidity figures differ from the
fresh snapshot `snNew` (its turnover rate is 10, `snNew` carries 7). -/
def infoOld : StockQuoteInfo := infoPass

/-- First state/tip pair produced by feeding `snLimit` at time 0 to a fresh
tracker. -/
def prW : StockQuoteInfo × Option Tip :=
  ((stockStep none rowW snLimit 0).1, (stockStep none rowW snLimit 0).2.1)

/-- Snapshot map for the failed-fetch scenario: only stock "000002" has a
snapshot. -/
def snsW : String → Option Snapshot :=
  fun c => if c = "000002" then some snLimit else none

/-- Second candidate row, for the failed-fetch scenario. -/
def rowW2 : Row := { rowW with stock_code := "000002", stock_name := "BBB" }

/-- The unconditional tail of the update always stores the current price. -/
theorem classify_price (pre : Option StockQuoteInfo) (row : Row) (sn : Snapshot) (dt : Int) :
    (classify pre row sn dt).1.price = sn.price := rfl

/-- The unconditional tail of the update always stores the cycle time. -/
theorem classify_dt (pre : Option StockQuoteInfo) (row : Row) (sn : Snapshot) (dt : Int) :
    (classify pre row sn dt).1.dt = dt := rfl

/-- The branch result either keeps the base record's off-limit time or sets
it to the cycle time. -/
theorem classifyCore_nzt_cases (pre : Option StockQuoteInfo) (row : Row) (sn : Snapshot)
    (dt : Int) :
    (classifyCore pre row sn dt).1.latest_nzt_dt = (baseInfo pre row sn dt).latest_nzt_dt ∨
    (classifyCore pre row sn dt).1.latest_nzt_dt = dt := by
  unfold classifyCore
  split_ifs <;> first | exact Or.inl rfl | exact Or.inr rfl

/-- The tail update does not touch the off-limit time. -/
theorem classify_nzt_eq (pre : Option StockQuoteInfo) (row : Row) (sn : Snapshot) (dt : Int) :
    (classify pre row sn dt).1.latest_nzt_dt = (classifyCore pre row sn dt).1.latest_nzt_dt :=
  rfl

/-- The tail update does not touch the at-limit time. -/
theorem classify_zt_eq (pre : Option StockQuoteInfo) (row : Row) (sn : Snapshot) (dt : Int) :
    (classify pre row sn dt).1.latest_zt_dt = (classifyCore pre row sn dt).1.latest_zt_dt :=
  rfl

/-- The tail update does not change the tip. -/
theorem classify_tip_eq (pre : Option StockQuoteInfo) (row : Row) (sn : Snapshot) (dt : Int) :
    (classify pre row sn dt).2 = (classifyCore pre row sn dt).2 :=
  rfl

/-- After an update at time `dt`, the off-limit time is at most `dt`,
provided any pre-existing record satisfied the same bound. -/
theorem classify_nzt_le (pre : Option StockQuoteInfo) (row : Row) (sn : Snapshot) (dt : Int)
    (h : ∀ p, pre = some p → p.latest_nzt_dt ≤ dt) :
    (classify pre row sn dt).1.latest_nzt_dt ≤ dt := by
  rw [classify_nzt_eq]
  rcases classifyCore_nzt_cases pre row sn dt with hc | hc
  · rw [hc]
    cases pre with
    | none => exact le_of_eq rfl
    | some p => exact h p rfl
  · exact le_of_eq hc

/-- A `ZT` or `ZT_KEEP` tip is produced only by the two branches that set
`latest_zt_dt` to the cycle time. -/
theorem classify_zt_of_tip (pre : Option StockQuoteInfo) (row : Row) (sn : Snapshot) (dt : Int)
    (h : (classify pre row sn dt).2 = some Tip.zt ∨
      (classify pre row sn dt).2 = some Tip.ztKeep) :
    (classify pre row sn dt).1.latest_zt_dt = some dt := by
  rw [classify_tip_eq] at h
  rw [classify_zt_eq]
  unfold classifyCore at h ⊢
  split_ifs at h ⊢ <;> simp_all

/-- All market and liquidity fields of the updated record are those of the
pre-existing record, untouched by the branch and tail updates. -/
theorem stockStep_market_fields (p : StockQuoteInfo) (row : Row) (sn : Snapshot) (dt : Int) :
    (stockStep (some p) row sn dt).1.total_market_value = p.total_market_value ∧
    (stockStep (some p) row sn dt).1.circulating_market_value = p.circulating_market_value ∧
    (stockStep (some p) row sn dt).1.turnover_rate = p.turnover_rate ∧
    (stockStep (some p) row sn dt).1.trading_volume = p.trading_volume ∧
    (stockStep (some p) row sn dt).1.trading_amount = p.trading_amount ∧
    (stockStep (some p) row sn dt).1.sell_1_price = p.sell_1_price ∧
    (stockStep (some p) row sn dt).1.buy_1_price = p.buy_1_price ∧
    (stockStep (some p) row sn dt).1.sell_1_count = p.sell_1_count ∧
    (stockStep (some p) row sn dt).1.buy_1_count = p.buy_1_count := by
  unfold stockStep classify classifyCore
  split_ifs <;> exact ⟨rfl, rfl, rfl, rfl, rfl, rfl, rfl, rfl, rfl⟩

/-- C1 counterexample: a stock with an existing record (turnover rate 10)
reappears with a snapshot carrying turnover rate 7, yet after the update
the record still holds 10 — the market/liquidity fields are not overwritten
with the latest snapshot values. -/
theorem market_fields_not_refreshed_on_reappearance :
    (stockStep (some infoOld) rowW snNew 100).1.turnover_rate = 10 ∧
      snNew.turnover_rate = 7 ∧
      (stockStep (some infoOld) rowW snNew 100).1.turnover_rate ≠ snNew.turnover_rate := by
  have h10 : (stockStep (some infoOld) rowW snNew 100).1.turnover_rate = 10 := by
    rw [(stockStep_market_fields infoOld rowW snNew 100).2.2.1]
    rfl
  have h7 : snNew.turnover_rate = 7 := rfl
  refine ⟨h10, h7, ?_⟩
  rw [h10, h7]
  norm_num

/-- C1 (amended): when a stock that already has a record reappears as a
candidate, the State Tracker update unconditionally sets `price` to the
current price and `dt` to now, while every market/liquidity field (total
and circulating market value, turnover rate, trading volume, trading
amount, best bid/ask price and size) keeps the value recorded at first
sighting, rather than being overwritten with the latest snapshot. -/
theorem reappearance_updates_only_price_and_dt (p : StockQuoteInfo) (row : Row)
    (sn : Snapshot) (dt : Int) :
    (stockStep (some p) row sn dt).1.price = sn.price ∧
    (stockStep (some p) row sn dt).1.dt = dt ∧
    (stockStep (some p) row sn dt).1.total_market_value = p.total_market_value ∧
    (stockStep (some p) row sn dt).1.circulating_market_value = p.circulating_market_value ∧
    (stockStep (some p) row sn dt).1.turnover_rate = p.turnover_rate ∧
    (stockStep (some p) row sn dt).1.trading_volume = p.trading_volume ∧
    (stockStep (some p) row sn dt).1.trading_amount = p.trading_amount ∧
    (stockStep (some p) row sn dt).1.sell_1_price = p.sell_1_price ∧
    (stockStep (some p) row sn dt).1.buy_1_price = p.buy_1_price ∧
    (stockStep (some p) row sn dt).1.sell_1_count = p.sell_1_count ∧
    (stockStep (some p) row sn dt).1.buy_1_count = p.buy_1_count := by
  exact ⟨rfl, rfl, stockStep_market_fields p row sn dt⟩

/-- C4: whenever the current price is within `eps` of the limit price, the
classification is exactly one of `ZT`, `ZT_KEEP`, `ZT_BREAK` and never the
`None` tip, for any tracker state (first sighting or existing record). -/
theorem at_limit_never_none (pre : Option StockQuoteInfo) (row : Row) (sn : Snapshot)
    (dt : Int) (h : |sn.top_price - sn.price| ≤ eps) :
    ((classify pre row sn dt).2 = some Tip.zt ∨
     (classify pre row sn dt).2 = some Tip.ztKeep ∨
     (classify pre row sn dt).2 = some Tip.ztBreak) ∧
    (classify pre row sn dt).2 ≠ none := by
  rw [classify_tip_eq]
  unfold classifyCore
  rw [if_pos h]
  split_ifs <;> simp

/-- Witness for C4 at a price exactly `eps` below the limit. -/
theorem at_limit_never_none_witness :
    ((classify none rowW snEdge 0).2 = some Tip.zt ∨
     (classify none rowW snEdge 0).2 = some Tip.ztKeep ∨
     (classify none rowW snEdge 0).2 = some Tip.ztBreak) ∧
    (classify none rowW snEdge 0).2 ≠ none :=
  at_limit_never_none none rowW snEdge 0 (by norm_num [snEdge, snLimit, eps, abs_le])

/-- C5: for an existing record, a current price within `eps` of the limit
but strictly below the stored previous price yields the `ZT_BREAK` tip,
sets the off-limit time to now, and leaves the at-limit time unchanged. -/
theorem break_on_at_limit_drop (p : StockQuoteInfo) (row : Row) (sn : Snapshot) (dt : Int)
    (hat : |sn.top_price - sn.price| ≤ eps) (hlt : sn.price < p.price) :
    (classify (some p) row sn dt).2 = some Tip.ztBreak ∧
    (classify (some p) row sn dt).1.latest_nzt_dt = dt ∧
    (classify (some p) row sn dt).1.latest_zt_dt = p.latest_zt_dt := by
  have hb : baseInfo (some p) row sn dt = p := rfl
  rw [classify_tip_eq, classify_nzt_eq, classify_zt_eq]
  unfold classifyCore
  rw [hb, if_pos hat]
  have h1 : ¬((some p : Option StockQuoteInfo) = none ∨ sn.price > p.price) := by
    push_neg
    exact ⟨by simp, le_of_lt hlt⟩
  have h2 : ¬(sn.price = p.price) := ne_of_lt hlt
  rw [if_neg h1, if_neg h2]
  exact ⟨rfl, rfl, rfl⟩

/-- Witness for C5: the record holds price 10, the snapshot price 9.99. -/
theorem break_on_at_limit_drop_witness :
    (classify (some infoPass) rowW snEdge 50).2 = some Tip.ztBreak ∧
    (classify (some infoPass) rowW snEdge 50).1.latest_nzt_dt = 50 ∧
    (classify (some infoPass) rowW snEdge 50).1.latest_zt_dt = infoPass.latest_zt_dt :=
  break_on_at_limit_drop infoPass rowW snEdge 50
    (by norm_num [snEdge, snLimit, eps, abs_le])
    (by norm_num [snEdge, snLimit, infoPass])

/-- C7: feeding the identical at-limit snapshot twice in a row yields the
`ZT_KEEP` (holding) tip on the second classification, not `ZT`: the first
update stores the current price, so the equal price takes the equality
branch. -/
theorem identical_snapshot_twice_holding (s : Option StockQuoteInfo) (row : Row)
    (sn : Snapshot) (dt1 dt2 : Int) (h : |sn.top_price - sn.price| ≤ eps) :
    (stockStep s row sn dt1).1.price = sn.price ∧
    (stockStep (some ((stockStep s row sn dt1).1)) row sn dt2).2.1 = some Tip.ztKeep := by
  refine ⟨rfl, ?_⟩
  have hb : baseInfo (some ((stockStep s row sn dt1).1)) row sn dt2 =
      (stockStep s row sn dt1).1 := rfl
  have hp : (stockStep s row sn dt1).1.price = sn.price := rfl
  show (classify (some ((stockStep s row sn dt1).1)) row sn dt2).2 = some Tip.ztKeep
  rw [classify_tip_eq]
  unfold classifyCore
  rw [hb, hp, if_pos h]
  have h1 : ¬((some ((stockStep s row sn dt1).1) : Option StockQuoteInfo) = none ∨
      sn.price > sn.price) := by
    push_neg
    exact ⟨by simp, le_refl sn.price⟩
  rw [if_neg h1, if_pos rfl]

/-- Witness for C7 on the concrete at-limit snapshot `snLimit`. -/
theorem identical_snapshot_twice_holding_witness :
    (stockStep none rowW snLimit 0).1.price = snLimit.price ∧
    (stockStep (some ((stockStep none rowW snLimit 0).1)) rowW snLimit 5).2.1 =
      some Tip.ztKeep :=
  identical_snapshot_twice_holding none rowW snLimit 0 5 (by norm_num [snLimit, eps, abs_le])

/-- The gate lets a `ZT` tip through without reading `zt_keep_seconds`. -/
theorem gate_zt (info : StockQuoteInfo) : gate (some Tip.zt) info = some true := rfl

/-- The gate rejects the `None` tip. -/
theorem gate_tip_none (info : StockQuoteInfo) : gate none info = some false := rfl

/-- The gate rejects the `ZT_BREAK` tip. -/
theorem gate_ztBreak (info : StockQuoteInfo) : gate (some Tip.ztBreak) info = some false := rfl

/-- On a `ZT_KEEP` tip the gate compares the hold seconds to the cap. -/
theorem gate_ztKeep (info : StockQuoteInfo) (k : Int) (hk : info.zt_keep_seconds = some k) :
    gate (some Tip.ztKeep) info = some (decide (k ≤ ZT_NOTICE_MAX_SECONDS)) := by
  unfold gate
  rw [if_neg (by simp), if_pos rfl, hk]

/-- A passing gate hands the decision to the rule chain. -/
theorem notifyDecision_gate_true (tip : Option Tip) (info : StockQuoteInfo)
    (h : gate tip info = some true) : notifyDecision tip info = ruleChain info := by
  unfold notifyDecision
  rw [h]

/-- A failing gate means no notification. -/
theorem notifyDecision_gate_false (tip : Option Tip) (info : StockQuoteInfo)
    (h : gate tip info = some false) : notifyDecision tip info = some false := by
  unfold notifyDecision
  rw [h]

/-- `zt_keep_seconds` on a record whose at-limit time is set. -/
theorem zt_keep_seconds_of_zt (info : StockQuoteInfo) (z : Int)
    (h : info.latest_zt_dt = some z) :
    info.zt_keep_seconds = some ((z - info.latest_nzt_dt) % 86400) := by
  unfold StockQuoteInfo.zt_keep_seconds
  rw [h]
  rfl

/-- The rule chain never hits the `None` read once the hold seconds exist. -/
theorem ruleChain_ne_none (info : StockQuoteInfo) (k : Int)
    (hk : info.zt_keep_seconds = some k) : ruleChain info ≠ none := by
  unfold ruleChain
  rw [hk]
  split_ifs <;> simp
  split_ifs <;> simp

/-- A gate verdict plus a non-`None` rule chain keep the decision total. -/
theorem notifyDecision_ne_none (tip : Option Tip) (info : StockQuoteInfo) (b : Bool)
    (hg : gate tip info = some b) (hr : ruleChain info ≠ none) :
    notifyDecision tip info ≠ none := by
  unfold notifyDecision
  rw [hg]
  cases b
  · simp
  · exact hr

/-- C9: on the first sighting of a stock no notification is ever emitted:
the first-sighting defaults make the hold seconds zero, so the
minimum-hold filter always fails, and every non-at-limit path fails the
gate. -/
theorem first_sighting_never_notifies (row : Row) (sn : Snapshot) (dt : Int) :
    (stockStep none row sn dt).2.2 = some false := by
  show notifyDecision (classify none row sn dt).2 (classify none row sn dt).1 = some false
  by_cases hat : |sn.top_price - sn.price| ≤ eps
  · have hc : classifyCore none row sn dt =
        ({ mkFirstInfo row sn dt with latest_zt_dt := some dt }, some Tip.zt) := by
      unfold classifyCore
      rw [if_pos hat, if_pos (Or.inl rfl)]
      rfl
    have htip : (classify none row sn dt).2 = some Tip.zt := by
      rw [classify_tip_eq, hc]
    have hz : (classify none row sn dt).1.latest_zt_dt = some dt := by
      rw [classify_zt_eq, hc]
    have hn : (classify none row sn dt).1.latest_nzt_dt = dt := by
      rw [classify_nzt_eq, hc]
      rfl
    have hkeep : (classify none row sn dt).1.zt_keep_seconds = some 0 := by
      rw [zt_keep_seconds_of_zt _ dt hz, hn]
      simp
    rw [htip, notifyDecision_gate_true _ _ (gate_zt _)]
    unfold ruleChain
    rw [hkeep]
    split_ifs <;> rfl
  · have hc : classifyCore none row sn dt =
        ({ mkFirstInfo row sn dt with latest_nzt_dt := dt }, none) := by
      unfold classifyCore
      rw [if_neg hat]
      rfl
    have htip : (classify none row sn dt).2 = none := by
      rw [classify_tip_eq, hc]
    rw [htip, notifyDecision_gate_false _ _ (gate_tip_none _)]

/-- C10: the per-stock step never performs a `zt_keep_seconds` read on a
`None` at-limit time — the decision is always a definite boolean, because
the only tips that reach a read (`ZT`, `ZT_KEEP`) come from branches that
just assigned the at-limit time. -/
theorem zt_keep_seconds_read_safe (pre : Option StockQuoteInfo) (row : Row) (sn : Snapshot)
    (dt : Int) : (stockStep pre row sn dt).2.2 ≠ none := by
  show notifyDecision (classify pre row sn dt).2 (classify pre row sn dt).1 ≠ none
  cases htip : (classify pre row sn dt).2 with
  | none =>
    rw [notifyDecision_gate_false _ _ (gate_tip_none _)]
    simp
  | some t =>
    cases t with
    | zt =>
      have hz := classify_zt_of_tip pre row sn dt (Or.inl htip)
      have hk := zt_keep_seconds_of_zt _ dt hz
      exact notifyDecision_ne_none _ _ true (gate_zt _) (ruleChain_ne_none _ _ hk)
    | ztKeep =>
      have hz := classify_zt_of_tip pre row sn dt (Or.inr htip)
      have hk := zt_keep_seconds_of_zt _ dt hz
      exact notifyDecision_ne_none _ _ _ (gate_ztKeep _ _ hk) (ruleChain_ne_none _ _ hk)
    | ztBreak =>
      rw [notifyDecision_gate_false _ _ (gate_ztBreak _)]
      simp

/-- C2: the gate passes (and the rule chain is consulted) iff the tip is
`ZT`, or the tip is `ZT_KEEP` with hold seconds at most 33; a failing gate
yields no notification; a notification needs a passing gate; and a
`ZT_KEEP` record with hold seconds 40 is never notified. -/
theorem trigger_gate_spec (tip : Option Tip) (info : StockQuoteInfo) :
    (gate tip info = some true ↔
      tip = some Tip.zt ∨ (tip = some Tip.ztKeep ∧
        ∃ k, info.zt_keep_seconds = some k ∧ k ≤ ZT_NOTICE_MAX_SECONDS)) ∧
    (notifyDecision tip info = some true → gate tip info = some true) ∧
    (gate tip info = some false → notifyDecision tip info = some false) ∧
    (info.zt_keep_seconds = some 40 → notifyDecision (some Tip.ztKeep) info = some false) := by
  refine ⟨?_, ?_, ?_, ?_⟩
  · cases tip with
    | none => simp [gate_tip_none]
    | some t =>
      cases t with
      | zt => simp [gate_zt]
      | ztKeep =>
        cases hk : info.zt_keep_seconds with
        | none =>
          unfold gate
          rw [if_neg (by simp), if_pos rfl, hk]
          simp
        | some k =>
          rw [gate_ztKeep info k hk]
          simp [ZT_NOTICE_MAX_SECONDS]
      | ztBreak => simp [gate_ztBreak]
  · intro h
    unfold notifyDecision at h
    cases hg : gate tip info with
    | none => rw [hg] at h; simp at h
    | some b =>
      cases b
      · rw [hg] at h; simp at h
      · rfl
  · intro hg
    exact notifyDecision_gate_false _ _ hg
  · intro hk
    have hg : gate (some Tip.ztKeep) info = some false := by
      rw [gate_ztKeep info 40 hk]
      rfl
    exact notifyDecision_gate_false _ _ hg

/-- Witness for C2: on a record whose hold seconds are 40, a `ZT_KEEP`
classification produces no notification. -/
theorem trigger_gate_spec_witness :
    notifyDecision (some Tip.ztKeep) info40 = some false :=
  (trigger_gate_spec (some Tip.ztKeep) info40).2.2.2 (by decide)

/-- Passing the market-cap band negates filter 1's skip test. -/
theorem not_skip_cap (info : StockQuoteInfo) (h : passMarketCap info) :
    ¬(info.total_market_value < 10 * 10000 * 10000 ∨
      info.total_market_value > 1000 * 10000 * 10000) := by
  rintro (hc | hc)
  · exact absurd hc (not_lt.mpr h.1)
  · exact absurd hc (not_lt.mpr h.2)

/-- Failing the market-cap band fires filter 1's skip test. -/
theorem skip_cap_of_not_pass (info : StockQuoteInfo) (h : ¬ passMarketCap info) :
    info.total_market_value < 10 * 10000 * 10000 ∨
      info.total_market_value > 1000 * 10000 * 10000 := by
  rcases lt_or_ge info.total_market_value (10 * 10000 * 10000) with hlt | hge
  · exact Or.inl hlt
  · right
    by_contra hng
    push_neg at hng
    exact h ⟨hge, hng⟩

/-- Passing the price band negates filter 2's skip test. -/
theorem not_skip_price (info : StockQuoteInfo) (h : passPriceBand info) :
    ¬(info.price < 3 ∨ info.price > 20) := by
  rintro (hc | hc)
  · exact absurd hc (not_lt.mpr h.1)
  · exact absurd hc (not_lt.mpr h.2)

/-- Failing the price band fires filter 2's skip test. -/
theorem skip_price_of_not_pass (info : StockQuoteInfo) (h : ¬ passPriceBand info) :
    info.price < 3 ∨ info.price > 20 := by
  rcases lt_or_ge info.price 3 with hlt | hge
  · exact Or.inl hlt
  · right
    by_contra hng
    push_neg at hng
    exact h ⟨hge, hng⟩

/-- Passing the turnover band negates filter 3's skip test. -/
theorem not_skip_turnover (info : StockQuoteInfo) (h : passTurnover info) :
    ¬(info.turnover_rate < 5 ∨ info.turnover_rate > 15) := by
  rintro (hc | hc)
  · exact absurd hc (not_lt.mpr h.1)
  · exact absurd hc (not_lt.mpr h.2)

/-- Failing the turnover band fires filter 3's skip test. -/
theorem skip_turnover_of_not_pass (info : StockQuoteInfo) (h : ¬ passTurnover info) :
    info.turnover_rate < 5 ∨ info.turnover_rate > 15 := by
  rcases lt_or_ge info.turnover_rate 5 with hlt | hge
  · exact Or.inl hlt
  · right
    by_contra hng
    push_neg at hng
    exact h ⟨hge, hng⟩

/-- Passing the trading-amount share band negates filter 4's skip test. -/
theorem not_skip_amount (info : StockQuoteInfo) (h : passAmountShare info) :
    ¬(info.trading_amount / info.total_market_value < 5 / 100 ∨
      info.trading_amount / info.total_market_value > 15 / 100) := by
  rintro (hc | hc)
  · exact absurd hc (not_lt.mpr h.1)
  · exact absurd hc (not_lt.mpr h.2)

/-- Failing the trading-amount share band fires filter 4's skip test. -/
theorem skip_amount_of_not_pass (info : StockQuoteInfo) (h : ¬ passAmountShare info) :
    info.trading_amount / info.total_market_value < 5 / 100 ∨
      info.trading_amount / info.total_market_value > 15 / 100 := by
  rcases lt_or_ge (info.trading_amount / info.total_market_value) (5 / 100) with hlt | hge
  · exact Or.inl hlt
  · right
    by_contra hng
    push_neg at hng
    exact h ⟨hge, hng⟩

/-- Passing the buy-depth floor negates filter 5's skip test. -/
theorem not_skip_depth (info : StockQuoteInfo) (h : passBuyDepth info) :
    ¬(info.buy_1_count * 100 * info.buy_1_price / info.total_market_value < 5 / 1000) :=
  not_lt.mpr h

/-- Failing the buy-depth floor fires filter 5's skip test. -/
theorem skip_depth_of_not_pass (info : StockQuoteInfo) (h : ¬ passBuyDepth info) :
    info.buy_1_count * 100 * info.buy_1_price / info.total_market_value < 5 / 1000 :=
  not_le.mp h

/-- With filters 1-5 passing, the rule chain reduces to the hold test. -/
theorem ruleChain_last (info : StockQuoteInfo) (k : Int)
    (hk : info.zt_keep_seconds = some k)
    (h1 : ¬(info.total_market_value < 10 * 10000 * 10000 ∨
      info.total_market_value > 1000 * 10000 * 10000))
    (h2 : ¬(info.price < 3 ∨ info.price > 20))
    (h3 : ¬(info.turnover_rate < 5 ∨ info.turnover_rate > 15))
    (h4 : ¬(info.trading_amount / info.total_market_value < 5 / 100 ∨
      info.trading_amount / info.total_market_value > 15 / 100))
    (h5 : ¬(info.buy_1_count * 100 * info.buy_1_price / info.total_market_value
      < 5 / 1000)) :
    ruleChain info = if k < 30 then some false else some true := by
  unfold ruleChain
  rw [if_neg h1, if_neg h2, if_neg h3, if_neg h4, if_neg h5, hk]

/-- A failing filter 1 short-circuits the chain to no notification. -/
theorem ruleChain_skip1 (info : StockQuoteInfo)
    (h : info.total_market_value < 10 * 10000 * 10000 ∨
      info.total_market_value > 1000 * 10000 * 10000) :
    ruleChain info = some false := by
  unfold ruleChain
  rw [if_pos h]

/-- A failing filter 2 (others before it passing) yields no notification. -/
theorem ruleChain_skip2 (info : StockQuoteInfo)
    (h1 : ¬(info.total_market_value < 10 * 10000 * 10000 ∨
      info.total_market_value > 1000 * 10000 * 10000))
    (h : info.price < 3 ∨ info.price > 20) :
    ruleChain info = some false := by
  unfold ruleChain
  rw [if_neg h1, if_pos h]

/-- A failing filter 3 (others before it passing) yields no notification. -/
theorem ruleChain_skip3 (info : StockQuoteInfo)
    (h1 : ¬(info.total_market_value < 10 * 10000 * 10000 ∨
      info.total_market_value > 1000 * 10000 * 10000))
    (h2 : ¬(info.price < 3 ∨ info.price > 20))
    (h : info.turnover_rate < 5 ∨ info.turnover_rate > 15) :
    ruleChain info = some false := by
  unfold ruleChain
  rw [if_neg h1, if_neg h2, if_pos h]

/-- A failing filter 4 (others before it passing) yields no notification. -/
theorem ruleChain_skip4 (info : StockQuoteInfo)
    (h1 : ¬(info.total_market_value < 10 * 10000 * 10000 ∨
      info.total_market_value > 1000 * 10000 * 10000))
    (h2 : ¬(info.price < 3 ∨ info.price > 20))
    (h3 : ¬(info.turnover_rate < 5 ∨ info.turnover_rate > 15))
    (h : info.trading_amount / info.total_market_value < 5 / 100 ∨
      info.trading_amount / info.total_market_value > 15 / 100) :
    ruleChain info = some false := by
  unfold ruleChain
  rw [if_neg h1, if_neg h2, if_neg h3, if_pos h]

/-- A failing filter 5 (others before it passing) yields no notification. -/
theorem ruleChain_skip5 (info : StockQuoteInfo)
    (h1 : ¬(info.total_market_value < 10 * 10000 * 10000 ∨
      info.total_market_value > 1000 * 10000 * 10000))
    (h2 : ¬(info.price < 3 ∨ info.price > 20))
    (h3 : ¬(info.turnover_rate < 5 ∨ info.turnover_rate > 15))
    (h4 : ¬(info.trading_amount / info.total_market_value < 5 / 100 ∨
      info.trading_amount / info.total_market_value > 15 / 100))
    (h : info.buy_1_count * 100 * info.buy_1_price / info.total_market_value
      < 5 / 1000) :
    ruleChain info = some false := by
  unfold ruleChain
  rw [if_neg h1, if_neg h2, if_neg h3, if_neg h4, if_pos h]

/-- C3: once the trigger gate passes, the notification fires iff all six
filter conditions hold (a strict conjunction), and whenever at least one
fails — in particular when a single rule is flipped from pass to fail —
the decision is a definite "no notification". -/
theorem filter_chain_strict_and (tip : Option Tip) (info : StockQuoteInfo) (k : Int)
    (hg : gate tip info = some true) (hk : info.zt_keep_seconds = some k) :
    (notifyDecision tip info = some true ↔
      (passMarketCap info ∧ passPriceBand info ∧ passTurnover info ∧
       passAmountShare info ∧ passBuyDepth info ∧ passMinHold k)) ∧
    (¬(passMarketCap info ∧ passPriceBand info ∧ passTurnover info ∧
       passAmountShare info ∧ passBuyDepth info ∧ passMinHold k) →
      notifyDecision tip info = some false) := by
  rw [notifyDecision_gate_true _ _ hg]
  have hfalse : ¬(passMarketCap info ∧ passPriceBand info ∧ passTurnover info ∧
      passAmountShare info ∧ passBuyDepth info ∧ passMinHold k) →
      ruleChain info = some false := by
    intro hnc
    by_cases p1 : passMarketCap info
    · by_cases p2 : passPriceBand info
      · by_cases p3 : passTurnover info
        · by_cases p4 : passAmountShare info
          · by_cases p5 : passBuyDepth info
            · by_cases p6 : passMinHold k
              · exact absurd ⟨p1, p2, p3, p4, p5, p6⟩ hnc
              · rw [ruleChain_last info k hk (not_skip_cap info p1)
                  (not_skip_price info p2) (not_skip_turnover info p3)
                  (not_skip_amount info p4) (not_skip_depth info p5)]
                rw [if_pos (not_le.mp p6)]
            · exact ruleChain_skip5 info (not_skip_cap info p1) (not_skip_price info p2)
                (not_skip_turnover info p3) (not_skip_amount info p4)
                (skip_depth_of_not_pass info p5)
          · exact ruleChain_skip4 info (not_skip_cap info p1) (not_skip_price info p2)
              (not_skip_turnover info p3) (skip_amount_of_not_pass info p4)
        · exact ruleChain_skip3 info (not_skip_cap info p1) (not_skip_price info p2)
            (skip_turnover_of_not_pass info p3)
      · exact ruleChain_skip2 info (not_skip_cap info p1) (skip_price_of_not_pass info p2)
    · exact ruleChain_skip1 info (skip_cap_of_not_pass info p1)
  refine ⟨⟨?_, ?_⟩, hfalse⟩
  · intro h
    by_contra hnc
    rw [hfalse hnc] at h
    simp at h
  · rintro ⟨p1, p2, p3, p4, p5, p6⟩
    rw [ruleChain_last info k hk (not_skip_cap info p1) (not_skip_price info p2)
      (not_skip_turnover info p3) (not_skip_amount info p4) (not_skip_depth info p5)]
    rw [if_neg (not_lt.mpr p6)]

/-- Witness for C3 on a record whose six filter values all pass. -/
theorem filter_chain_strict_and_witness :
    notifyDecision (some Tip.zt) infoPass = some true :=
  (filter_chain_strict_and (some Tip.zt) infoPass 35 (gate_zt infoPass)
    (by decide)).1.mpr
    ⟨by norm_num [passMarketCap, infoPass], by norm_num [passPriceBand, infoPass],
     by norm_num [passTurnover, infoPass], by norm_num [passAmountShare, infoPass],
     by norm_num [passBuyDepth, infoPass], by norm_num [passMinHold]⟩

/-- Invariant run: along any trace whose timestamps are sorted and bound the
starting record's off-limit time, every state classified `ZT` or `ZT_KEEP`
has its at-limit time set at or after its off-limit time, so the hold
seconds are non-negative. -/
theorem runStates_hold_nonneg (row : Row) (steps : List (Int × Snapshot)) :
    ∀ (pre : Option StockQuoteInfo),
      (∀ p, pre = some p → ∀ q ∈ steps, p.latest_nzt_dt ≤ q.1) →
      ((steps.map Prod.fst).Sorted (· ≤ ·)) →
      ∀ pr ∈ runStates row pre steps,
        (pr.2 = some Tip.zt ∨ pr.2 = some Tip.ztKeep) →
        ∃ z, pr.1.latest_zt_dt = some z ∧ 0 ≤ z - pr.1.latest_nzt_dt ∧
          pr.1.zt_keep_seconds = some ((z - pr.1.latest_nzt_dt) % 86400) ∧
          0 ≤ (z - pr.1.latest_nzt_dt) % 86400 := by
  induction steps with
  | nil =>
    intro pre _ _ pr hpr
    simp [runStates] at hpr
  | cons head rest ih =>
    obtain ⟨t, sn⟩ := head
    intro pre hpre hsort pr hpr htag
    rw [List.map_cons] at hsort
    have hsort' := (List.sorted_cons.mp hsort)
    rw [runStates] at hpr
    rcases List.mem_cons.mp hpr with hpr | hpr
    · subst hpr
      have hz : (classify pre row sn t).1.latest_zt_dt = some t :=
        classify_zt_of_tip pre row sn t htag
      have hn : (classify pre row sn t).1.latest_nzt_dt ≤ t :=
        classify_nzt_le pre row sn t
          (fun p hp => hpre p hp (t, sn) (List.mem_cons_self _ _))
      refine ⟨t, hz, sub_nonneg.mpr hn, zt_keep_seconds_of_zt _ t hz, ?_⟩
      exact Int.emod_nonneg _ (by norm_num)
    · refine ih (some ((stockStep pre row sn t).1)) ?_ hsort'.2 pr hpr htag
      intro p hp q hq
      have hpt : (stockStep pre row sn t).1.latest_nzt_dt ≤ t :=
        classify_nzt_le pre row sn t
          (fun p' hp' => hpre p' hp' (t, sn) (List.mem_cons_self _ _))
      have htq : t ≤ q.1 := hsort'.1 q.1 (List.mem_map_of_mem Prod.fst hq)
      rw [(Option.some.injEq _ _).mp hp] at hpt
      exact le_trans hpt htq

/-- C6: starting from no record, feed any sequence of snapshots with
monotonically non-decreasing timestamps; immediately after every `ZT` or
`ZT_KEEP` (just-hit or holding) classification the at-limit time minus the
off-limit time is non-negative, and the hold seconds read through
`zt_keep_seconds` are defined and non-negative. -/
theorem hold_seconds_nonneg (row : Row) (steps : List (Int × Snapshot))
    (pr : StockQuoteInfo × Option Tip)
    (hsort : (steps.map Prod.fst).Sorted (· ≤ ·))
    (hmem : pr ∈ runStates row none steps)
    (htag : pr.2 = some Tip.zt ∨ pr.2 = some Tip.ztKeep) :
    ∃ z, pr.1.latest_zt_dt = some z ∧ 0 ≤ z - pr.1.latest_nzt_dt ∧
      pr.1.zt_keep_seconds = some ((z - pr.1.latest_nzt_dt) % 86400) ∧
      0 ≤ (z - pr.1.latest_nzt_dt) % 86400 :=
  runStates_hold_nonneg row steps none (fun _ hp => nomatch hp) hsort pr hmem htag

/-- Witness for C6: a one-step trace hitting the limit at time 0. -/
theorem hold_seconds_nonneg_witness :
    ∃ z, prW.1.latest_zt_dt = some z ∧ 0 ≤ z - prW.1.latest_nzt_dt ∧
      prW.1.zt_keep_seconds = some ((z - prW.1.latest_nzt_dt) % 86400) ∧
      0 ≤ (z - prW.1.latest_nzt_dt) % 86400 :=
  hold_seconds_nonneg rowW [(0, snLimit)] prW (by simp)
    (by rw [runStates, runStates]; exact List.mem_singleton.mpr rfl)
    (Or.inl (by
      show (classify none rowW snLimit 0).2 = some Tip.zt
      rw [classify_tip_eq]
      unfold classifyCore
      rw [if_pos (by norm_num [snLimit, eps, abs_le]), if_pos (Or.inl rfl)]))

/-- C8 (code behaviour at the failing input): with two candidates and a
snapshot map missing the first one's entry, the cycle loop aborts with the
uncaught `KeyError` instead of skipping the failed candidate — the second
candidate is never processed and the error propagates out of the driver
loop, which has no handler. -/
theorem missing_snapshot_aborts_cycle :
    processCycle (fun _ => none) [rowW, rowW2] snsW 0 =
      Except.error (CycleError.keyError "000001") := rfl

end DailyLimit
